import Mathlib

/-!
Shallow embedding of the maya-tests repository (src/run_tests.py and
src/suite.py) and proofs of the specification claims.

The repository is a command-line launcher (`run_tests.py`) that resolves a
Maya installation, builds a disposable preferences directory, spawns
`mayapy` to run `suite.py`, relays the child's exit code, and removes the
temporary directory; `suite.py` initializes Maya standalone, discovers and
runs the tests, and exits with a boolean "had errors" flag.

Runtime-dependent data (the operating system reported by
`platform.system()`, the filesystem, the environment, the temp directory,
the generated UUID, the child's exit code) are explicit parameters of the
Lean functions; every function body follows the corresponding Python
source line by line.
-/

/-- The three branches of `platform.system()` the code distinguishes:
`"Windows"`, `"Darwin"`, and everything else (Linux and other systems). -/
inductive OS
  | windows
  | darwin
  | other
deriving DecidableEq, Repr

/-- `os.sep`, the path separator `os.path.join` inserts on each platform. -/
def os_sep : OS → String
  | .windows => "\\"
  | _ => "/"

/-- `os.path.join(a, b)` for the way the code uses it: `b` is a non-empty
relative path and `a` has no trailing separator, so the result is
`a + os.sep + b`. -/
def path_join (sys : OS) (a b : String) : String := a ++ os_sep sys ++ b

/-! ## suite.py -/

/-- The outcome of `unittest.TextTestRunner().run(suite)` as far as
`suite.py` inspects it: the `errors` and `failures` lists of the
`TestResult` (each entry the description of one errored/failed test). -/
structure TestResult where
  errors : List String
  failures : List String
deriving DecidableEq, Repr

/-- `suite.main` (src/suite.py lines 32-38): runs discovery and the text
runner and returns `bool(runner.run(suite).errors)` — true exactly when
the result's `errors` list is non-empty.  The `failures` list is never
consulted. -/
def suite_main (r : TestResult) : Bool := !r.errors.isEmpty

/-- `sys.exit(main())` (src/suite.py lines 41-42): `main` returns a
`bool`, and `bool` is an `int` subclass, so `sys.exit(True)` exits with
status 1 and `sys.exit(False)` with status 0. -/
def suite_exit_code (r : TestResult) : Int := if suite_main r then 1 else 0

/-- The spec's notion of the suite "passing": no test failed or errored.
Written from the claim's words, to be compared against what the code
computes. -/
def suite_passed (r : TestResult) : Bool := r.errors.isEmpty && r.failures.isEmpty

/-! ## run_tests.py: the finally-block cleanup and exit-code relay -/

/-- A file inside the temporary preferences directory, with the one
attribute the cleanup path cares about: whether it is writable (a
read-only file makes `os.remove`/`os.rmdir` fail with `EACCES` on
Windows). -/
structure MFile where
  name : String
  writable : Bool
deriving DecidableEq, Repr

/-- Whether `shutil.rmtree(dir)` — called with neither `ignore_errors`
nor `onerror`, as in the `finally` block of `run_tests.main`
(src/run_tests.py line 61) — succeeds on a directory holding `files`:
it raises on the first file it cannot remove. -/
inductive CleanupResult
  | ok
  | raised (msg : String)
deriving DecidableEq, Repr

/-- Plain `shutil.rmtree` over the model filesystem: fails on the first
non-writable file, succeeds when every file is writable. -/
def rmtree_plain (files : List MFile) : CleanupResult :=
  match files.find? (fun f => !f.writable) with
  | some f => .raised ("rmtree: could not remove " ++ f.name)
  | none => .ok

/-- How the launcher process ends (src/run_tests.py lines 56-61):
`sys.exit(call(command, env=env))` raises `SystemExit(code)`; the
`except CalledProcessError` clause never fires (`subprocess.call` does
not raise it); the `finally` clause runs `shutil.rmtree(maya_app_dir)`.
If the rmtree raises, its exception replaces the `SystemExit` and the
interpreter dies with an uncaught-exception traceback; otherwise the
`SystemExit` resumes. -/
inductive LauncherOutcome
  | exit (code : Int)
  | uncaught (msg : String)
deriving DecidableEq, Repr

/-- The tail of `run_tests.main`: given the child's exit code and the
contents of the temporary preferences directory, the outcome of the
`try/finally` block. -/
def run_tests_main_outcome (child_code : Int) (app_dir_files : List MFile) :
    LauncherOutcome :=
  match rmtree_plain app_dir_files with
  | .ok => .exit child_code
  | .raised m => .uncaught m

/-- The exit status the shell observes: the `SystemExit` code when the
process exits normally, and 1 when it dies with an uncaught exception
(CPython's exit status for an unhandled traceback). -/
def shell_exit_code : LauncherOutcome → Int
  | .exit c => c
  | .uncaught _ => 1

/-! ## Helper lemmas on the cleanup model -/

theorem rmtree_plain_ok_iff (files : List MFile) :
    rmtree_plain files = CleanupResult.ok ↔
      files.all (fun f => f.writable) = true := by
  unfold rmtree_plain
  cases hf : files.find? (fun f => !f.writable) with
  | none =>
    simp only [true_iff]
    rw [List.find?_eq_none] at hf
    rw [List.all_eq_true]
    intro f hmem
    have := hf f hmem
    simpa using this
  | some f =>
    simp only [reduceCtorEq, false_iff]
    have hmem := List.mem_of_find?_eq_some hf
    have hprop := List.find?_some hf
    intro hall
    rw [List.all_eq_true] at hall
    have := hall f hmem
    simp at hprop
    rw [this] at hprop
    exact absurd hprop (by simp)

/-! ## run_tests.py: remove_read_only -/

/-- The `func` argument `shutil.rmtree` passes to its `onerror` callback.
`remove_read_only` compares it against `os.rmdir` and `os.remove`; every
other function object (e.g. `os.lstat`, `os.scandir`, `os.unlink`,
`os.open`) falls in `other`. -/
inductive PyFunc
  | os_rmdir
  | os_remove
  | other
deriving DecidableEq, Repr

/-- What a call to `remove_read_only` does. `chmod_retry p` is the
documented recovery (`os.chmod(p, 0o777)` followed by retrying
`func(p)`); `nameError` is an uncaught `NameError`; `runtimeError` the
explicit `raise RuntimeError(...)`. -/
inductive PyOutcome
  | chmod_retry (path : String)
  | nameError
  | runtimeError (msg : String)
deriving DecidableEq, Repr

/-- `remove_read_only` (src/run_tests.py lines 83-95).  The guard is
`func in (os.rmdir, os.remove) and excvalue.errno == errno.EACCES`:
`and` short-circuits, so when `func` is neither `os.rmdir` nor
`os.remove` the right operand is never evaluated and control reaches the
`else` branch, which raises `RuntimeError`.  When `func` is `os.rmdir`
or `os.remove`, evaluating the right operand looks up the name `errno`,
which is never imported in run_tests.py, so the comparison raises
`NameError` before the `chmod`-and-retry line can run, whatever the
exception value was. -/
def remove_read_only (func : PyFunc) (path : String) : PyOutcome :=
  match func with
  | .os_rmdir => .nameError
  | .os_remove => .nameError
  | .other => .runtimeError ("Could not remove " ++ path)

/-! ## run_tests.py: Maya location and mayapy executable -/

/-- The value the local variable `location` holds when control reaches the
existence check in `get_maya_location` (src/run_tests.py lines 98-118):
the `MAYA_LOCATION` environment variable when set, else the per-platform
default.  `location` is initialized to `None` but every branch assigns
it, so the result is modelled as `Option String` with `none` never
produced (proved in `resolve_maya_location_isSome`). -/
def resolve_maya_location (maya_location_env : Option String) (sys : OS)
    (maya_version : Int) : Option String :=
  match maya_location_env with
  | some loc => some loc
  | none =>
    match sys with
    | .windows => some ("C:/Program Files/Autodesk/Maya" ++ toString maya_version)
    | .darwin =>
        some ("/Applications/Autodesk/maya" ++ toString maya_version
          ++ "/Maya.app/Contents")
    | .other =>
        let location := "/usr/autodesk/maya" ++ toString maya_version
        some (if maya_version < 2016 then location ++ "-x64" else location)

/-- `get_maya_location` (src/run_tests.py lines 98-124).  `path_exists`
models `os.path.exists`.  Raising `RuntimeError` is modelled as
`Except.error` carrying the message. -/
def get_maya_location (maya_location_env : Option String) (sys : OS)
    (maya_version : Int) (path_exists : String → Bool) : Except String String :=
  match resolve_maya_location maya_location_env sys maya_version with
  | none =>
      .error ("Maya " ++ toString maya_version ++ " is not installed on this system.")
  | some location =>
      if !path_exists location then
        .error ("Maya " ++ toString maya_version ++ " is not installed on this system.")
      else
        .ok location

/-- `get_mayapy_executable` (src/run_tests.py lines 127-134):
`"{0}/bin/mayapy".format(get_maya_location(...))`, with `".exe"` appended
on Windows.  The string formatting uses a literal `/`, not
`os.path.join`, on every platform. -/
def get_mayapy_executable (maya_location_env : Option String) (sys : OS)
    (maya_version : Int) (path_exists : String → Bool) : Except String String :=
  (get_maya_location maya_location_env sys maya_version path_exists).map
    (fun location =>
      let python_exe := location ++ "/bin/mayapy"
      if sys = OS.windows then python_exe ++ ".exe" else python_exe)

/-! ## run_tests.py: create_clean_maya_app_dir -/

/-- The filesystem operations `create_clean_maya_app_dir` performs, in
order.  `rmtree_onerror p` is `shutil.rmtree(p, ignore_errors=False,
onerror=remove_read_only)`. -/
inductive FSOp
  | makedirs (p : String)
  | rmtree_onerror (p : String)
  | copytree (src dst : String)
deriving DecidableEq, Repr

/-- `create_clean_maya_app_dir` (src/run_tests.py lines 64-80).
`current_dir` is `CURRENT_DIR`, `temp_dir` the value of
`tempfile.gettempdir()`, `uuid` the value of `str(uuid.uuid4())`;
`temp_dir_exists` and `maya_app_dir_exists` are the two
`os.path.exists` probes.  Returns the path the function returns together
with the trace of filesystem operations it performs. -/
def create_clean_maya_app_dir (sys : OS) (current_dir temp_dir uuid : String)
    (temp_dir_exists maya_app_dir_exists : Bool) : String × List FSOp :=
  let app_dir := path_join sys current_dir "clean_maya_app_dir"
  let maya_app_dir := path_join sys temp_dir ("maya_app_dir" ++ uuid)
  ((maya_app_dir),
    (if temp_dir_exists then [] else [FSOp.makedirs temp_dir])
      ++ (if maya_app_dir_exists then [FSOp.rmtree_onerror maya_app_dir] else [])
      ++ [FSOp.copytree app_dir maya_app_dir])

/-! ## run_tests.py: the child environment -/

/-- A Python `dict` of environment variables, keys unique, modelled as an
association list.  `os.environ.copy()` is the identity on this model. -/
def EnvDict := List (String × String)

/-- Dictionary assignment `d[k] = v`: replace the value when the key is
present, append otherwise. -/
def envSet : List (String × String) → String → String → List (String × String)
  | [], k, v => [(k, v)]
  | (k', v') :: rest, k, v =>
      if k' = k then (k, v) :: rest else (k', v') :: envSet rest k v

/-- Dictionary lookup `d.get(k)`: the value at the first (hence, keys
being unique, the only) entry with key `k`. -/
def envGet : List (String × String) → String → Option String
  | [], _ => none
  | (k', v') :: rest, k => if k' = k then some v' else envGet rest k

/-- `CURRENT_DIR`-relative module path
`PARENT_REPO_MODULE_PATH = os.path.join(CURRENT_DIR, "..", "modules")`
(src/run_tests.py line 26). -/
def PARENT_REPO_MODULE_PATH (sys : OS) (current_dir : String) : String :=
  path_join sys (path_join sys current_dir "..") "modules"

/-- The `MAYA_MODULE_PATH` value
`";".join([PARENT_REPO_MODULE_PATH, CURRENT_DIR])`
(src/run_tests.py lines 52-53). -/
def maya_module_path_value (sys : OS) (current_dir : String) : String :=
  String.intercalate ";" [PARENT_REPO_MODULE_PATH sys current_dir, current_dir]

/-- The environment handed to the child process (src/run_tests.py lines
36-54): `env = os.environ.copy()` followed by `env.update({...})` with
the three keys `MAYA_APP_DIR`, `MAYA_SCRIPT_PATH`, `MAYA_MODULE_PATH`,
applied in the dict literal's insertion order. -/
def child_env (sys : OS) (parent : List (String × String))
    (current_dir maya_app_dir : String) : List (String × String) :=
  envSet
    (envSet
      (envSet parent "MAYA_APP_DIR" maya_app_dir)
      "MAYA_SCRIPT_PATH" "")
    "MAYA_MODULE_PATH" (maya_module_path_value sys current_dir)

/-! ## Helper lemmas on the environment model -/

theorem envGet_envSet_same (e : List (String × String)) (k v : String) :
    envGet (envSet e k v) k = some v := by
  induction e with
  | nil => simp [envSet, envGet]
  | cons p rest ih =>
    obtain ⟨a, b⟩ := p
    by_cases h : a = k
    · simp [envSet, envGet, h]
    · simp [envSet, envGet, h, ih]

theorem envGet_envSet_other (e : List (String × String)) (k v k' : String)
    (h : k' ≠ k) : envGet (envSet e k v) k' = envGet e k' := by
  induction e with
  | nil =>
    simp only [envSet, envGet]
    rw [if_neg (fun hh => h hh.symm)]
  | cons p rest ih =>
    obtain ⟨a, b⟩ := p
    by_cases ha : a = k
    · subst ha
      simp only [envSet, if_pos rfl, envGet]
      rw [if_neg (fun hh => h hh.symm), if_neg (fun hh => h hh.symm)]
    · simp only [envSet, if_neg ha, envGet]
      by_cases ha' : a = k'
      · rw [if_pos ha', if_pos ha']
      · rw [if_neg ha', if_neg ha', ih]

/-! ## Further helper lemmas -/

theorem string_append_left_cancel {a b c : String} (h : a ++ b = a ++ c) :
    b = c := by
  apply String.ext
  have hd := congrArg String.data h
  rw [String.data_append, String.data_append] at hd
  exact List.append_cancel_left hd

/-- Every branch of `get_maya_location` assigns `location`, so the
`location is None` half of the existence check never fires. -/
theorem resolve_maya_location_isSome (o : Option String) (sys : OS) (v : Int) :
    (resolve_maya_location o sys v).isSome := by
  cases o <;> cases sys <;> simp [resolve_maya_location]

/-! ## Claim theorems -/

/-- C1, counterexample: a run whose suite records one test failure and no
error (`TestResult ⟨[], ["test_foo failed"]⟩`) does not pass, yet — with
cleanup succeeding on an empty temp directory — the exit code delivered
to the shell is 0.  This refutes "exit code non-zero iff the suite did
not pass": `suite.main` returns `bool(result.errors)` and never consults
`result.failures`. -/
theorem suite_failure_exits_zero :
    suite_passed ⟨[], ["test_foo failed"]⟩ = false ∧
    shell_exit_code
      (run_tests_main_outcome (suite_exit_code ⟨[], ["test_foo failed"]⟩) [])
      = 0 := by
  exact ⟨rfl, rfl⟩

/-- C1 (amended): provided cleanup of the temporary directory succeeds,
the final exit code delivered to the shell is non-zero if and only if
the test run recorded at least one *error*; runs with only failures
exit 0. -/
theorem exit_code_nonzero_iff_errors (r : TestResult) (files : List MFile)
    (h : rmtree_plain files = CleanupResult.ok) :
    shell_exit_code (run_tests_main_outcome (suite_exit_code r) files) ≠ 0 ↔
      r.errors ≠ [] := by
  unfold run_tests_main_outcome
  rw [h]
  by_cases he : r.errors = [] <;>
    simp [shell_exit_code, suite_exit_code, suite_main, he]

/-- C1 witness: a run with one error and a clean temp directory exits
non-zero. -/
theorem exit_code_nonzero_iff_errors_witness :
    shell_exit_code
      (run_tests_main_outcome (suite_exit_code ⟨["boom"], []⟩) []) ≠ 0 :=
  (exit_code_nonzero_iff_errors ⟨["boom"], []⟩ [] rfl).mpr (by decide)

/-- C2, counterexample: the child exits 0 but the temporary preferences
directory holds one read-only file; the `finally`-block
`shutil.rmtree(maya_app_dir)` is called with no `onerror` handler, so it
raises, the launcher aborts with an uncaught exception, and the shell
sees exit status 1 instead of 0.  This refutes "the files are still
removed ... and the launcher does not abort or change the exit code it
propagates". -/
theorem cleanup_failure_changes_exit_code :
    run_tests_main_outcome 0 [⟨"userPrefs.mel", false⟩]
      = LauncherOutcome.uncaught "rmtree: could not remove userPrefs.mel" ∧
    shell_exit_code (run_tests_main_outcome 0 [⟨"userPrefs.mel", false⟩]) ≠ 0 := by
  exact ⟨rfl, by decide⟩

/-- C2 (amended): the launcher's post-run deletion of the temporary
preferences directory is unconditional (it sits in a `finally` block)
but not fault-tolerant: when every file is writable the directory is
removed and the child's exit code is preserved, and when any file is
read-only the plain `shutil.rmtree` raises, the launcher aborts, and the
shell receives exit status 1 in place of the child's code.  (The
chmod-and-retry handler exists but is attached only to the removal of a
pre-existing directory inside `create_clean_maya_app_dir`.) -/
theorem cleanup_not_best_effort (c : Int) (files : List MFile) :
    (files.all (fun f => f.writable) = true →
      run_tests_main_outcome c files = LauncherOutcome.exit c) ∧
    (files.all (fun f => f.writable) = false →
      shell_exit_code (run_tests_main_outcome c files) = 1) := by
  constructor
  · intro h
    unfold run_tests_main_outcome
    rw [(rmtree_plain_ok_iff files).mpr h]
  · intro h
    unfold run_tests_main_outcome
    cases hr : rmtree_plain files with
    | ok =>
      have := (rmtree_plain_ok_iff files).mp hr
      rw [h] at this
      exact absurd this (by simp)
    | raised m => rfl

/-- C2 witness: both arms at concrete inputs — a writable file lets exit
code 7 through, a read-only file turns it into 1. -/
theorem cleanup_not_best_effort_witness :
    run_tests_main_outcome 7 [⟨"a", true⟩] = LauncherOutcome.exit 7 ∧
    shell_exit_code (run_tests_main_outcome 7 [⟨"a", false⟩]) = 1 :=
  ⟨(cleanup_not_best_effort 7 [⟨"a", true⟩]).1 (by decide),
   (cleanup_not_best_effort 7 [⟨"a", false⟩]).2 (by decide)⟩

/-- C3: whenever the `finally`-block rmtree succeeds, `run_tests.main`
terminates via the pending `SystemExit` carrying exactly the child's
exit code, which is what the shell observes. -/
theorem child_exit_code_forwarded (c : Int) (files : List MFile)
    (h : rmtree_plain files = CleanupResult.ok) :
    run_tests_main_outcome c files = LauncherOutcome.exit c ∧
    shell_exit_code (run_tests_main_outcome c files) = c := by
  unfold run_tests_main_outcome
  rw [h]
  exact ⟨rfl, rfl⟩

/-- C3 witness: child exit code 42, empty temp directory. -/
theorem child_exit_code_forwarded_witness :
    run_tests_main_outcome 42 [] = LauncherOutcome.exit 42 ∧
    shell_exit_code (run_tests_main_outcome 42 []) = 42 :=
  child_exit_code_forwarded 42 [] rfl

/-- C4: `suite.main` returns `bool(result.errors)` — true exactly when
the run recorded at least one error — and `sys.exit` of that boolean
gives process exit status 1 iff there were errors, 0 otherwise. -/
theorem suite_exit_status_iff_errors (r : TestResult) :
    (suite_main r = true ↔ r.errors ≠ []) ∧
    (suite_exit_code r = 1 ↔ r.errors ≠ []) ∧
    (suite_exit_code r = 0 ↔ r.errors = []) := by
  by_cases he : r.errors = [] <;>
    simp [suite_main, suite_exit_code, he]

/-- C5: with no `MAYA_LOCATION` override and the resolved location
present on disk, the interpreter path is exactly the per-platform string
of the claim — Windows `C:/Program Files/Autodesk/Maya{v}/bin/mayapy.exe`,
Darwin `/Applications/Autodesk/maya{v}/Maya.app/Contents/bin/mayapy`,
other systems `/usr/autodesk/maya{v}/bin/mayapy` with the directory
suffixed `-x64` exactly when `v < 2016`; and when `MAYA_LOCATION` is
set, its value is used as the installation location on every platform.
The filesystem hypothesis `hall` makes every existence probe succeed. -/
theorem append_bin_mayapy_exe : ("/bin/mayapy" : String) ++ ".exe" = "/bin/mayapy.exe" := by
  decide

theorem append_contents_bin_mayapy :
    ("/Maya.app/Contents" : String) ++ "/bin/mayapy" = "/Maya.app/Contents/bin/mayapy" := by
  decide

theorem mayapy_path_per_platform (v : Int) (pe : String → Bool)
    (hall : ∀ s, pe s = true) :
    get_mayapy_executable none OS.windows v pe
      = Except.ok ("C:/Program Files/Autodesk/Maya" ++ toString v
          ++ "/bin/mayapy.exe") ∧
    get_mayapy_executable none OS.darwin v pe
      = Except.ok ("/Applications/Autodesk/maya" ++ toString v
          ++ "/Maya.app/Contents/bin/mayapy") ∧
    get_mayapy_executable none OS.other v pe
      = Except.ok ((if v < 2016 then "/usr/autodesk/maya" ++ toString v ++ "-x64"
          else "/usr/autodesk/maya" ++ toString v) ++ "/bin/mayapy") ∧
    (∀ (sys : OS) (loc : String),
      get_maya_location (some loc) sys v pe = Except.ok loc) := by
  refine ⟨?_, ?_, ?_, ?_⟩
  · simp only [get_mayapy_executable, get_maya_location, resolve_maya_location,
      hall, Bool.not_true, Bool.false_eq_true, if_false, Except.map, reduceIte]
    rw [String.append_assoc, append_bin_mayapy_exe]
  · simp only [get_mayapy_executable, get_maya_location, resolve_maya_location,
      hall, Bool.not_true, Bool.false_eq_true, if_false, Except.map, reduceIte,
      reduceCtorEq, ite_false]
    rw [String.append_assoc, append_contents_bin_mayapy]
  · simp only [get_mayapy_executable, get_maya_location, resolve_maya_location,
      hall, Bool.not_true, Bool.false_eq_true, if_false, Except.map, reduceIte,
      reduceCtorEq, ite_false]
  · intro sys loc
    simp [get_maya_location, resolve_maya_location, hall]

/-- C5 witness: concrete versions on concrete platforms with an
everything-exists filesystem, evaluated to literal paths (2015 exercises
the `-x64` branch, 2020 the Windows branch, and the override is checked
on Darwin). -/
theorem mayapy_path_per_platform_witness :
    get_mayapy_executable none OS.other 2015 (fun _ => true)
      = Except.ok "/usr/autodesk/maya2015-x64/bin/mayapy" ∧
    get_mayapy_executable none OS.windows 2020 (fun _ => true)
      = Except.ok "C:/Program Files/Autodesk/Maya2020/bin/mayapy.exe" ∧
    get_maya_location (some "/opt/maya") OS.darwin 2020 (fun _ => true)
      = Except.ok "/opt/maya" := by
  refine ⟨?_, ?_, ?_⟩
  · exact ((mayapy_path_per_platform 2015 (fun _ => true)
      (fun s => rfl)).2.2.1).trans (congrArg Except.ok (by decide))
  · exact ((mayapy_path_per_platform 2020 (fun _ => true)
      (fun s => rfl)).1).trans (congrArg Except.ok (by decide))
  · exact (mayapy_path_per_platform 2020 (fun _ => true)
      (fun s => rfl)).2.2.2 OS.darwin "/opt/maya"

/-- C6: `get_maya_location` returns the error whose message names the
Maya version if and only if the resolved installation location fails the
`os.path.exists` probe; when the probe succeeds the resolved location is
returned unchanged. -/
theorem maya_location_error_iff_missing (o : Option String) (sys : OS)
    (v : Int) (pe : String → Bool) :
    ∃ loc, resolve_maya_location o sys v = some loc ∧
      (get_maya_location o sys v pe
          = Except.error ("Maya " ++ toString v ++ " is not installed on this system.")
        ↔ pe loc = false) ∧
      (pe loc = true → get_maya_location o sys v pe = Except.ok loc) := by
  obtain ⟨loc, hloc⟩ := Option.isSome_iff_exists.mp
    (resolve_maya_location_isSome o sys v)
  refine ⟨loc, hloc, ?_, ?_⟩
  · unfold get_maya_location
    rw [hloc]
    by_cases hp : pe loc = true
    · simp [hp]
    · simp [hp]
  · intro hp
    unfold get_maya_location
    rw [hloc]
    simp [hp]

/-- C6 witness: with `MAYA_LOCATION=/opt/maya`, an everything-exists
filesystem returns the location unchanged and a nothing-exists
filesystem produces the version-naming error. -/
theorem maya_location_error_iff_missing_witness :
    get_maya_location (some "/opt/maya") OS.other 2020 (fun _ => true)
      = Except.ok "/opt/maya" ∧
    get_maya_location (some "/opt/maya") OS.other 2020 (fun _ => false)
      = Except.error ("Maya " ++ toString (2020 : Int)
          ++ " is not installed on this system.") := by
  constructor
  · obtain ⟨loc, hloc, _, hok⟩ :=
      maya_location_error_iff_missing (some "/opt/maya") OS.other 2020
        (fun _ => true)
    have hl : loc = "/opt/maya" := by
      simpa [resolve_maya_location] using hloc.symm
    have h2 := hok rfl
    rw [hl] at h2
    exact h2
  · obtain ⟨loc, hloc, herr, _⟩ :=
      maya_location_error_iff_missing (some "/opt/maya") OS.other 2020
        (fun _ => false)
    exact herr.mpr rfl

/-- C7: on every run, `create_clean_maya_app_dir` returns the path of a
directory under the system temporary directory named `maya_app_dir`
followed by the generated UUID, its trace copies the bundled
`clean_maya_app_dir` preferences tree to that path, and two runs drawing
distinct UUIDs (under the same temp directory) get distinct
directories — whatever the two existence probes report. -/
theorem clean_maya_app_dir_fresh_unique (sys : OS)
    (current_dir temp_dir u1 u2 : String) (te1 me1 te2 me2 : Bool)
    (hu : u1 ≠ u2) :
    (create_clean_maya_app_dir sys current_dir temp_dir u1 te1 me1).1
      = path_join sys temp_dir ("maya_app_dir" ++ u1) ∧
    FSOp.copytree (path_join sys current_dir "clean_maya_app_dir")
        (path_join sys temp_dir ("maya_app_dir" ++ u1))
      ∈ (create_clean_maya_app_dir sys current_dir temp_dir u1 te1 me1).2 ∧
    (create_clean_maya_app_dir sys current_dir temp_dir u1 te1 me1).1
      ≠ (create_clean_maya_app_dir sys current_dir temp_dir u2 te2 me2).1 := by
  refine ⟨rfl, ?_, ?_⟩
  · simp [create_clean_maya_app_dir]
  · show path_join sys temp_dir ("maya_app_dir" ++ u1)
      ≠ path_join sys temp_dir ("maya_app_dir" ++ u2)
    intro h
    apply hu
    unfold path_join at h
    rw [String.append_assoc, String.append_assoc] at h
    have h2 := string_append_left_cancel h
    exact string_append_left_cancel (string_append_left_cancel h2)

/-- C7 witness: two concrete UUIDs under `/tmp` give distinct paths, and
the trace copies the bundled tree. -/
theorem clean_maya_app_dir_fresh_unique_witness :
    (create_clean_maya_app_dir OS.other "/repo/maya-tests" "/tmp" "aaaa" true false).1
      = path_join OS.other "/tmp" ("maya_app_dir" ++ "aaaa") ∧
    (create_clean_maya_app_dir OS.other "/repo/maya-tests" "/tmp" "aaaa" true false).1
      ≠ (create_clean_maya_app_dir OS.other "/repo/maya-tests" "/tmp" "bbbb" true false).1 :=
  ⟨(clean_maya_app_dir_fresh_unique OS.other "/repo/maya-tests" "/tmp" "aaaa"
      "bbbb" true false true false (by decide)).1,
   (clean_maya_app_dir_fresh_unique OS.other "/repo/maya-tests" "/tmp" "aaaa"
      "bbbb" true false true false (by decide)).2.2⟩

/-- C8: the environment handed to the child equals the launcher's
environment with exactly the three variables `MAYA_APP_DIR` (the fresh
preferences directory), `MAYA_SCRIPT_PATH` (empty) and
`MAYA_MODULE_PATH` set; every other variable reads exactly as in the
parent environment. -/
theorem child_env_exactly_three_vars (sys : OS)
    (parent : List (String × String)) (current_dir maya_app_dir : String) :
    envGet (child_env sys parent current_dir maya_app_dir) "MAYA_APP_DIR"
      = some maya_app_dir ∧
    envGet (child_env sys parent current_dir maya_app_dir) "MAYA_SCRIPT_PATH"
      = some "" ∧
    envGet (child_env sys parent current_dir maya_app_dir) "MAYA_MODULE_PATH"
      = some (maya_module_path_value sys current_dir) ∧
    (∀ k, k ≠ "MAYA_APP_DIR" → k ≠ "MAYA_SCRIPT_PATH" → k ≠ "MAYA_MODULE_PATH" →
      envGet (child_env sys parent current_dir maya_app_dir) k
        = envGet parent k) := by
  refine ⟨?_, ?_, ?_, ?_⟩
  · unfold child_env
    rw [envGet_envSet_other _ _ _ _ (by decide),
      envGet_envSet_other _ _ _ _ (by decide), envGet_envSet_same]
  · unfold child_env
    rw [envGet_envSet_other _ _ _ _ (by decide), envGet_envSet_same]
  · unfold child_env
    rw [envGet_envSet_same]
  · intro k h1 h2 h3
    unfold child_env
    rw [envGet_envSet_other _ _ _ _ h3, envGet_envSet_other _ _ _ _ h2,
      envGet_envSet_other _ _ _ _ h1]

/-- C8 witness: with a one-entry parent environment, `PATH` passes
through unchanged and the three variables read back their set values. -/
theorem child_env_exactly_three_vars_witness :
    envGet (child_env OS.other [("PATH", "/usr/bin")] "/repo"
      "/tmp/maya_app_dirx") "PATH" = some "/usr/bin" ∧
    envGet (child_env OS.other [("PATH", "/usr/bin")] "/repo"
      "/tmp/maya_app_dirx") "MAYA_APP_DIR" = some "/tmp/maya_app_dirx" :=
  ⟨((child_env_exactly_three_vars OS.other [("PATH", "/usr/bin")] "/repo"
      "/tmp/maya_app_dirx").2.2.2 "PATH" (by decide) (by decide)
      (by decide)).trans (by decide),
   (child_env_exactly_three_vars OS.other [("PATH", "/usr/bin")] "/repo"
      "/tmp/maya_app_dirx").1⟩

/-- C9, counterexample: an invocation with a `func` other than
`os.rmdir`/`os.remove` (as `shutil.rmtree` produces for directory-listing
failures, e.g. `os.lstat` or `os.scandir`) short-circuits past the
`errno` reference and raises `RuntimeError`, not `NameError` — refuting
"every invocation of remove_read_only raises a NameError". -/
theorem remove_read_only_other_runtime_error :
    remove_read_only PyFunc.other "/tmp/maya_app_dirx/prefs"
      = PyOutcome.runtimeError "Could not remove /tmp/maya_app_dirx/prefs" ∧
    remove_read_only PyFunc.other "/tmp/maya_app_dirx/prefs"
      ≠ PyOutcome.nameError := by
  exact ⟨rfl, by decide⟩

/-- C9 (amended): every invocation of `remove_read_only` raises — a
`NameError` when `func` is `os.rmdir` or `os.remove` (the guard
evaluates the never-imported name `errno`), a `RuntimeError` otherwise
(short-circuit skips the `errno` reference) — and in no case does it
perform the documented chmod-and-retry recovery. -/
theorem remove_read_only_never_recovers (f : PyFunc) (p : String) :
    (∀ q, remove_read_only f p ≠ PyOutcome.chmod_retry q) ∧
    ((f = PyFunc.os_rmdir ∨ f = PyFunc.os_remove) →
      remove_read_only f p = PyOutcome.nameError) ∧
    (f = PyFunc.other →
      remove_read_only f p = PyOutcome.runtimeError ("Could not remove " ++ p)) := by
  cases f <;> simp [remove_read_only]

/-- C9 witness: `os.rmdir` on a concrete path raises `NameError`. -/
theorem remove_read_only_never_recovers_witness :
    remove_read_only PyFunc.os_rmdir "/tmp/x" = PyOutcome.nameError :=
  (remove_read_only_never_recovers PyFunc.os_rmdir "/tmp/x").2.1 (Or.inl rfl)

/-- C10: on every platform — non-Windows included — the
`MAYA_MODULE_PATH` handed to the child is the two module directories
joined with the Windows-convention `;` separator (the code hard-codes
`";".join(...)` rather than `os.pathsep`). -/
theorem maya_module_path_always_semicolon (sys : OS)
    (parent : List (String × String)) (current_dir maya_app_dir : String) :
    envGet (child_env sys parent current_dir maya_app_dir) "MAYA_MODULE_PATH"
      = some (PARENT_REPO_MODULE_PATH sys current_dir ++ ";" ++ current_dir) := by
  unfold child_env
  rw [envGet_envSet_same]
  rfl
